import Mathlib

/-!
Verification of the presence-duration accounting core of the `mytime` status
tracker bot (`src/main.py`), as a shallow embedding in Lean.

Modelling conventions:
* Python floats (durations, timestamps) are modelled as rationals (`ℚ`).
* Timestamps are seconds (JST) since an epoch aligned to a JST midnight;
  `datetime.strftime("%Y-%m-%d")` is modelled by rendering the JST day index
  `⌊t / 86400⌋` as a string (`strftime_date`).  The accounting code uses the
  rendered date only as an opaque bucket-key component, so only day-boundary
  behaviour matters and the calendar rendering itself is irrelevant.
* Python dicts are association lists (`List (key × value)`); `dict.get(k, 0)`
  is `(List.lookup k d).getD 0`.
* The Firestore document store is a partial map from member ids to documents;
  `doc_ref.set({... Increment ...}, merge=True)` calls issued by the handler
  are modelled as an explicit list of emitted write operations, since the
  claims are about which writes are issued.
* `f"{v:.2f}"` is modelled by rounding `v * 100` to the nearest integer
  (`formatFixed2`); Python rounds the underlying binary double half-to-even,
  which agrees on all inputs whose centisecond part is not an exact tie.
-/

/-- The transition table `last_status_updates`:
member id -> (status key, time the status began). -/
abbrev Table := List (ℕ × (String × ℚ))

/-- A member document in the store: field name -> numeric value. -/
abbrev Doc := List (String × ℚ)

/-- The document store, keyed by member id (`db.collection(...).document(str(id))`). -/
abbrev Store := ℕ → Option Doc

/-- `data.get(field, 0)` on a member document. -/
def docGet (data : Doc) (fld : String) : ℚ :=
  (List.lookup fld data).getD 0

/-- Python dict assignment `last_status_updates[user_id] = v`. -/
def tableInsert (uid : ℕ) (v : String × ℚ) : Table → Table
  | [] => [(uid, v)]
  | (k, w) :: t => if k = uid then (k, v) :: t else (k, w) :: tableInsert uid v t

/-- `prev_time.strftime("%Y-%m-%d")`, modelled as the JST day index of the
timestamp rendered as a string (see the module comment). -/
def strftime_date (t : ℚ) : String := toString ⌊t / 86400⌋

/-- The status normalisation performed inline before any accounting
(`if status_key == 'invisible': status_key = 'offline'`, `src/main.py`
lines 255-257 and the three analogous sites):  only `invisible` is rewritten,
every other raw value passes through unchanged. -/
def normalizeStatus (s : String) : String :=
  if s = "invisible" then "offline" else s

/-- One merged atomic write issued by `on_presence_update`
(`doc_ref.set({field_name: Increment(duration), date_field_name:
Increment(duration), 'last_updated': now}, merge=True)`). -/
structure IncrementWrite where
  lifetimeField : String
  dateField : String
  amount : ℚ
  lastUpdated : ℚ
deriving DecidableEq

/-- The accounting part of `StatusTrackerBot.on_presence_update`
(`src/main.py` lines 217-297).  Inputs: the bot's own id, whether `db` is
available, the current transition table, the member id, the raw before/after
statuses (`before_status` is optional, mirroring `if before.status`), and the
observation time `now`.  Returns the new table and the list of store writes
issued.  Logging (lines 231-248) has no effect on the accounting state and is
not modelled. -/
def on_presence_update (selfId : ℕ) (dbOk : Bool) (table : Table) (userId : ℕ)
    (beforeStatus : Option String) (afterStatus : String) (now : ℚ) :
    Table × List IncrementWrite :=
  if userId = selfId ∨ dbOk = false then (table, [])
  else
    let current_status_key := normalizeStatus afterStatus
    let rec0 : String × ℚ :=
      match List.lookup userId table with
      | some r => r
      | none => (normalizeStatus (beforeStatus.getD "offline"), now)
    let prev_status_key := rec0.1
    let prev_time := rec0.2
    if current_status_key = prev_status_key then (table, [])
    else
      let duration := now - prev_time
      let field_name := prev_status_key ++ "_seconds"
      let prev_date_str := strftime_date prev_time
      let date_field_name := prev_date_str ++ "_" ++ field_name
      let writes : List IncrementWrite :=
        if 0 < duration then
          [{ lifetimeField := field_name, dateField := date_field_name,
             amount := duration, lastUpdated := now }]
        else []
      (tableInsert userId (current_status_key, now) table, writes)

/-- The summary dict built by `get_user_report_data`: the four per-status
sums plus the `total`, `online_time_s` and `offline_time_s` keys. -/
structure UserData where
  online : ℚ
  idle : ℚ
  dnd : ℚ
  offline : ℚ
  total : ℚ
  online_time_s : ℚ
  offline_time_s : ℚ
deriving DecidableEq

/-- The inner loop of `get_user_report_data` for one status:
`for i in range(days): status_total_sec += data.get(f'{target_date}_{status}_seconds', 0)`
with `target_date = (now - timedelta(days=i)).strftime("%Y-%m-%d")`. -/
def statusDaySum (data : Doc) (now : ℚ) (days : ℕ) (status : String) : ℚ :=
  (List.range days).foldl
    (fun acc (i : ℕ) =>
      acc + docGet data (strftime_date (now - 86400 * (i : ℚ)) ++ "_" ++ status ++ "_seconds"))
    0

/-- `get_user_report_data` (`src/main.py` lines 499-550): fetch the member's
document; `None` when it does not exist; otherwise sum the per-day buckets of
each canonical status over the window and build the summary dict.  The
statuses loop accumulates `total_sec` over `['online','idle','dnd','offline']`
in order, `online_sec` over the first three and `offline_sec` over the last. -/
def get_user_report_data (store : Store) (memberId : ℕ) (now : ℚ) (days : ℕ) :
    Option UserData :=
  match store memberId with
  | none => none
  | some data =>
    let online_sec := statusDaySum data now days "online"
    let idle_sec := statusDaySum data now days "idle"
    let dnd_sec := statusDaySum data now days "dnd"
    let offline_sec := statusDaySum data now days "offline"
    some { online := online_sec, idle := idle_sec, dnd := dnd_sec,
           offline := offline_sec,
           total := online_sec + idle_sec + dnd_sec + offline_sec,
           online_time_s := online_sec + idle_sec + dnd_sec,
           offline_time_s := offline_sec }

/-- `"sep".join(parts)`, as used by `format_time`. -/
def str_join (sep : String) : List String → String
  | [] => ""
  | [x] => x
  | x :: y :: xs => x ++ sep ++ str_join sep (y :: xs)

/-- Python `f"{v:.2f}"` for non-negative `v`, modelled on rationals by
rounding `v * 100` to the nearest integer (see the module comment). -/
def formatFixed2 (v : ℚ) : String :=
  let n := (⌊v * 100 + 1 / 2⌋).toNat
  toString (n / 100) ++ "." ++ (if n % 100 < 10 then "0" else "") ++ toString (n % 100)

/-- The non-negative branch of `format_time` (`src/main.py` lines 456-473):
`total_seconds_int = int(seconds)`, `hours, remainder = divmod(_, 3600)`,
`minutes, seconds_int = divmod(remainder, 60)`,
`milliseconds = seconds - total_seconds_int`, then the parts list with the
seconds part appended when `seconds_int > 0 or milliseconds > 0 or not parts`. -/
def format_time_nonneg (seconds : ℚ) : String :=
  let total_seconds_int := (⌊seconds⌋).toNat
  let hours := total_seconds_int / 3600
  let remainder := total_seconds_int % 3600
  let minutes := remainder / 60
  let seconds_int := remainder % 60
  let milliseconds := seconds - (total_seconds_int : ℚ)
  let parts : List String :=
    (if 0 < hours then [toString hours ++ "時間"] else []) ++
      (if 0 < minutes then [toString minutes ++ "分"] else [])
  let parts :=
    if 0 < seconds_int ∨ 0 < milliseconds ∨ parts = [] then
      parts ++ [formatFixed2 ((seconds_int : ℚ) + milliseconds) ++ "秒"]
    else parts
  str_join " " parts

/-- `format_time` (`src/main.py` lines 451-473).  The source's negative
branch is `return f"({format_time(abs(seconds))})"`; since `abs(seconds)` is
non-negative, that recursive call always takes the non-negative branch, which
is factored out here as `format_time_nonneg`. -/
def format_time (seconds : ℚ) : String :=
  if seconds < 0 then "(" ++ format_time_nonneg |seconds| ++ ")"
  else format_time_nonneg seconds

/-- `get_status_emoji` (`src/main.py` lines 475-482). -/
def get_status_emoji (status : String) : String :=
  if status = "online" then "🟢 オンライン"
  else if status = "idle" then "🌙 退席中"
  else if status = "dnd" then "🔴 取り込み中"
  else if status = "offline" then "⚫ オフライン"
  else if status = "invisible" then "⚫ オフライン"
  else status.capitalize

/-- `user_data.get(f'{status}', 0)` in the presenter's breakdown loop. -/
def userDataGet (u : UserData) (status : String) : ℚ :=
  if status = "online" then u.online
  else if status = "idle" then u.idle
  else if status = "dnd" then u.dnd
  else if status = "offline" then u.offline
  else 0

/-- The detail-breakdown loop of `send_user_report_embed` (`src/main.py`
lines 598-604): one line `f"{get_status_emoji(status)}: {format_time(sec)}"`
per status with `sec > 0`. -/
def statusBreakdown (u : UserData) : List String :=
  ["online", "idle", "dnd", "offline"].filterMap fun status =>
    let sec := userDataGet u status
    if 0 < sec then some (get_status_emoji status ++ ": " ++ format_time sec)
    else none

/-- The observable shape of a report response: either the
"no activity found" notice or the embed with the grand total, the
online/offline split fields and the detail-breakdown lines. -/
inductive ReportOutput where
  | noActivity : ReportOutput
  | embed (totalFormatted onlineFormatted offlineFormatted : String)
      (breakdown : List String) : ReportOutput
deriving DecidableEq

/-- `send_user_report_embed` (`src/main.py` lines 552-616), reduced to the
data that determines the rendered message.  `user_data = none` models a falsy
`user_data` argument.  Mirrors both zero checks of the source: first
`user_data.get('total', 0) == 0`, then `total_sec == 0` for
`total_sec = online_time + offline_time`. -/
def send_user_report_embed (user_data : Option UserData) : ReportOutput :=
  match user_data with
  | none => ReportOutput.noActivity
  | some u =>
    if u.total = 0 then ReportOutput.noActivity
    else
      let online_time := u.online_time_s
      let offline_time := u.offline_time_s
      let total_sec := online_time + offline_time
      if total_sec = 0 then ReportOutput.noActivity
      else
        ReportOutput.embed (format_time total_sec) (format_time online_time)
          (format_time offline_time) (statusBreakdown u)

/-- The lookback-window sum in the wording of the aggregator claims: the sum,
over the `days` dates from the invocation day back through `days - 1` days
prior, of the per-day bucket of the given status, a missing bucket
contributing `0` (via `docGet`). -/
def windowSum (data : Doc) (now : ℚ) (days : ℕ) (status : String) : ℚ :=
  ((List.range days).map fun (i : ℕ) =>
    docGet data (strftime_date (now - 86400 * (i : ℚ)) ++ "_" ++ status ++ "_seconds")).sum

/-- The decomposition rule for non-negative inputs in the wording of the
amended formatter claim: whole hours, whole minutes and a remaining seconds
value with two fractional digits; the hours component is omitted when zero,
the minutes component is omitted when zero, and the seconds component is
included exactly when its value is nonzero or both other components are
absent. -/
def format_time_spec (q : ℚ) : String :=
  let t := (⌊q⌋).toNat
  let hours := t / 3600
  let minutes := t % 3600 / 60
  let secs := t % 60
  let frac := q - (t : ℚ)
  str_join " "
    ((if 0 < hours then [toString hours ++ "時間"] else []) ++
      (if 0 < minutes then [toString minutes ++ "分"] else []) ++
      (if 0 < secs ∨ 0 < frac ∨ (hours = 0 ∧ minutes = 0) then
        [formatFixed2 ((secs : ℚ) + frac) ++ "秒"] else []))

/-- The detail breakdown in the wording of the amended presenter claim: one
line per canonical status with a positive accumulated time, in canonical
order, showing the status label and its formatted duration; zero-valued
statuses are omitted. -/
def breakdown_spec (u : UserData) : List String :=
  (if 0 < u.online then ["🟢 オンライン: " ++ format_time u.online] else []) ++
    (if 0 < u.idle then ["🌙 退席中: " ++ format_time u.idle] else []) ++
      (if 0 < u.dnd then ["🔴 取り込み中: " ++ format_time u.dnd] else []) ++
        (if 0 < u.offline then ["⚫ オフライン: " ++ format_time u.offline] else [])

/-- Modelled from the spec: one-decimal fixed formatting, needed only to state
the percentage rendering that the spec's Presenter contract describes. -/
def formatFixed1 (v : ℚ) : String :=
  let n := (⌊v * 10 + 1 / 2⌋).toNat
  toString (n / 10) ++ "." ++ toString (n % 10)

/-- Modelled from the spec: the per-status breakdown that the spec's Presenter
contract describes — "each status's share of the grand total as a percentage
to one decimal place, omitting zero-valued statuses".  The source
(`send_user_report_embed`) renders formatted durations instead; this
definition exists only to be compared against the source's rendering. -/
def percentBreakdown_spec (u : UserData) : List String :=
  ["online", "idle", "dnd", "offline"].filterMap fun status =>
    let sec := userDataGet u status
    if 0 < sec then
      some (get_status_emoji status ++ ": " ++ formatFixed1 (100 * sec / u.total) ++ "%")
    else none

/-! ## Helper lemmas -/

/-- Looking up a key right after inserting it returns the inserted value. -/
theorem lookup_tableInsert_self (uid : ℕ) (v : String × ℚ) (t : Table) :
    List.lookup uid (tableInsert uid v t) = some v := by
  induction t with
  | nil => simp [tableInsert, List.lookup]
  | cons e t ih =>
    obtain ⟨k, w⟩ := e
    by_cases hk : k = uid
    · simp [tableInsert, hk, List.lookup]
    · simp [tableInsert, hk, List.lookup, ih, beq_eq_false_iff_ne.mpr (Ne.symm hk)]

/-- A left fold that only adds equals the sum of the mapped list. -/
theorem foldl_add_eq_sum (f : ℕ → ℚ) (l : List ℕ) (init : ℚ) :
    l.foldl (fun acc i => acc + f i) init = init + (l.map f).sum := by
  induction l generalizing init with
  | nil => simp
  | cons x xs ih => simp [List.foldl_cons, ih, add_assoc]

/-- The aggregator's accumulation loop computes the window sum. -/
theorem statusDaySum_eq_windowSum (data : Doc) (now : ℚ) (days : ℕ) (status : String) :
    statusDaySum data now days status = windowSum data now days status := by
  have h := foldl_add_eq_sum
    (fun i => docGet data (strftime_date (now - 86400 * (i : ℚ)) ++ "_" ++ status ++ "_seconds"))
    (List.range days) 0
  rw [statusDaySum, windowSum]
  rw [h, zero_add]

/-- Appending a nonempty string on the right yields a nonempty string. -/
theorem append_ne_empty_of_right (a b : String) (hb : b ≠ "") : a ++ b ≠ "" := by
  intro h
  apply hb
  have hd := congrArg String.data h
  rw [String.data_append] at hd
  have : b.data = [] := (List.append_eq_nil.mp hd).2
  exact String.ext this

/-- Joining a nonempty list of nonempty strings yields a nonempty string. -/
theorem str_join_space_ne_empty (l : List String) (hne : l ≠ [])
    (hx : ∀ x ∈ l, x ≠ "") : str_join " " l ≠ "" := by
  match l with
  | [] => exact absurd rfl hne
  | [x] => simpa [str_join] using hx x (by simp)
  | x :: y :: xs =>
    simp only [str_join]
    intro h
    have hlen := congrArg String.length h
    rw [String.length_append, String.length_append] at hlen
    have hsp : (" " : String).length = 1 := rfl
    have hxl : 0 < x.length := by
      rcases Nat.eq_zero_or_pos x.length with h0 | h0
      · exact absurd (String.ext (List.length_eq_zero.mp h0)) (hx x (by simp))
      · exact h0
    simp [hsp] at hlen

/-- A member of `if c then [e] else []` equals `e`. -/
theorem mem_ite_singleton {c : Prop} [Decidable c] {x e : String}
    (hx : x ∈ (if c then [e] else [])) : x = e := by
  split at hx
  · simpa using hx
  · simp at hx

/-- The non-negative branch of the formatter agrees with the amended
decomposition rule: the only differences between the two are
`t % 3600 % 60 = t % 60` and the source's `not parts` test, which holds
exactly when both the hours and the minutes components are absent. -/
theorem format_time_nonneg_eq_spec (q : ℚ) :
    format_time_nonneg q = format_time_spec q := by
  unfold format_time_nonneg format_time_spec
  have hmod : (⌊q⌋).toNat % 3600 % 60 = (⌊q⌋).toNat % 60 :=
    Nat.mod_mod_of_dvd _ (by norm_num)
  by_cases h0 : (⌊q⌋).toNat / 3600 = 0 <;>
    by_cases m0 : (⌊q⌋).toNat % 3600 / 60 = 0 <;>
      by_cases s0 : (⌊q⌋).toNat % 60 = 0 <;>
        by_cases f0 : ((⌊q⌋).toNat : ℚ) < q <;>
          simp [h0, m0, s0, f0, hmod, Nat.pos_iff_ne_zero, sub_pos]

/-- The amended decomposition rule never yields the empty string: its parts
list is never empty and each part ends in a nonempty unit suffix. -/
theorem format_time_spec_ne_empty (q : ℚ) : format_time_spec q ≠ "" := by
  unfold format_time_spec
  apply str_join_space_ne_empty
  · by_cases h0 : (⌊q⌋).toNat / 3600 = 0 <;>
      by_cases m0 : (⌊q⌋).toNat % 3600 / 60 = 0 <;>
        by_cases s0 : (⌊q⌋).toNat % 60 = 0 <;>
          by_cases f0 : ((⌊q⌋).toNat : ℚ) < q <;>
            simp [h0, m0, s0, f0, Nat.pos_iff_ne_zero, sub_pos]
  · intro x hx
    simp only [List.append_assoc, List.mem_append] at hx
    rcases hx with hx | hx | hx
    · rw [mem_ite_singleton hx]
      exact append_ne_empty_of_right _ _ (by decide)
    · rw [mem_ite_singleton hx]
      exact append_ne_empty_of_right _ _ (by decide)
    · rw [mem_ite_singleton hx]
      exact append_ne_empty_of_right _ _ (by decide)

/-- The presenter's breakdown loop produces exactly the per-status duration
lines of the amended claim. -/
theorem statusBreakdown_eq_spec (u : UserData) : statusBreakdown u = breakdown_spec u := by
  unfold statusBreakdown breakdown_spec
  by_cases h1 : 0 < u.online <;> by_cases h2 : 0 < u.idle <;>
    by_cases h3 : 0 < u.dnd <;> by_cases h4 : 0 < u.offline <;>
      simp [h1, h2, h3, h4, userDataGet, get_status_emoji]

/-! ## Claim theorems -/

/-- C1: for every presence transition with a stored record whose computed
duration `now - since` is strictly positive, the engine issues exactly one
merged write carrying the pair of atomic increments of that duration: one to
the lifetime bucket `{prev_status}_seconds` and one to the dated bucket keyed
by the calendar date of `since` (not of `now`), so an interval straddling
midnight is attributed entirely to its start day. -/
theorem on_presence_update_single_increment_pair
    (selfId userId : ℕ) (table : Table) (beforeStatus : Option String)
    (after prev : String) (since now : ℚ)
    (hself : userId ≠ selfId)
    (hrec : List.lookup userId table = some (prev, since))
    (hchange : normalizeStatus after ≠ prev)
    (hdur : 0 < now - since) :
    (on_presence_update selfId true table userId beforeStatus after now).2 =
      [{ lifetimeField := prev ++ "_seconds",
         dateField := strftime_date since ++ "_" ++ prev ++ "_seconds",
         amount := now - since, lastUpdated := now }] := by
  simp [on_presence_update, hrec, hself, hchange, hdur, String.append_assoc]

/-- C1 witness: a transition out of `online` that began at 23:50 of day 0
(`since = 85800`) and is observed at 00:10 of day 1 (`now = 87000`) yields
exactly one write of 1200 seconds to `online_seconds` and to day 0's bucket
`0_online_seconds`. -/
theorem on_presence_update_single_increment_pair_witness :
    (42 : ℕ) ≠ 1 ∧
    List.lookup 42 ([(42, ("online", (85800 : ℚ)))] : Table) = some ("online", (85800 : ℚ)) ∧
    normalizeStatus "offline" ≠ "online" ∧
    (0 : ℚ) < 87000 - 85800 ∧
    (on_presence_update 1 true [(42, ("online", 85800))] 42 none "offline" 87000).2 =
      [{ lifetimeField := "online_seconds", dateField := "0_online_seconds",
         amount := 1200, lastUpdated := 87000 }] := by
  refine ⟨by decide, rfl, by decide, by norm_num, ?_⟩
  have h := on_presence_update_single_increment_pair 1 42 [(42, ("online", 85800))]
    none "offline" "online" 85800 87000 (by decide) rfl (by decide) (by norm_num)
  have hd : strftime_date 85800 = "0" := by
    unfold strftime_date
    norm_num
    decide
  rw [h, hd]
  simp only [show (87000:ℚ) - 85800 = 1200 from by norm_num]
  decide

/-- C2: for every transition event whose normalized after-status equals the
status stored in the member's record, the engine issues no write at all. -/
theorem on_presence_update_noop_no_write
    (selfId userId : ℕ) (dbOk : Bool) (table : Table) (beforeStatus : Option String)
    (after prev : String) (since now : ℚ)
    (hrec : List.lookup userId table = some (prev, since))
    (hnoop : normalizeStatus after = prev) :
    (on_presence_update selfId dbOk table userId beforeStatus after now).2 = [] := by
  unfold on_presence_update
  split
  · rfl
  · simp [hrec, hnoop]

/-- C2 witness: a duplicate `idle -> idle` event issues no write. -/
theorem on_presence_update_noop_no_write_witness :
    List.lookup 7 ([(7, ("idle", (100 : ℚ)))] : Table) = some ("idle", (100 : ℚ)) ∧
    normalizeStatus "idle" = "idle" ∧
    (on_presence_update 1 true [(7, ("idle", 100))] 7 none "idle" 200).2 = [] :=
  ⟨rfl, rfl,
    on_presence_update_noop_no_write 1 7 true [(7, ("idle", 100))] none "idle" "idle"
      100 200 rfl rfl⟩

/-- C3: for every genuine transition (normalized after-status differs from the
recorded status), the record is overwritten with the normalized after-status
and the observation time regardless of the duration, and when the computed
duration is non-positive the write is skipped. -/
theorem on_presence_update_nonpositive_duration_advances_record
    (selfId userId : ℕ) (table : Table) (beforeStatus : Option String)
    (after prev : String) (since now : ℚ)
    (hself : userId ≠ selfId)
    (hrec : List.lookup userId table = some (prev, since))
    (hchange : normalizeStatus after ≠ prev) :
    (now - since ≤ 0 →
      (on_presence_update selfId true table userId beforeStatus after now).2 = []) ∧
    List.lookup userId (on_presence_update selfId true table userId beforeStatus after now).1 =
      some (normalizeStatus after, now) := by
  constructor
  · intro hle
    simp [on_presence_update, hrec, hself, hchange, not_lt.mpr hle]
  · simp [on_presence_update, hrec, hself, hchange, lookup_tableInsert_self]

/-- C3 witness: a transition observed 100 seconds before its recorded start
(clock anomaly) writes nothing but still advances the record to
(`offline`, observation time). -/
theorem on_presence_update_nonpositive_duration_advances_record_witness :
    (42 : ℕ) ≠ 1 ∧ (400 : ℚ) - 500 ≤ 0 ∧
    (on_presence_update 1 true [(42, ("online", 500))] 42 none "offline" 400).2 = [] ∧
    List.lookup 42 (on_presence_update 1 true [(42, ("online", 500))] 42 none "offline" 400).1 =
      some (normalizeStatus "offline", 400) := by
  have h := on_presence_update_nonpositive_duration_advances_record 1 42
    [(42, ("online", 500))] none "offline" "online" 500 400 (by decide) rfl (by decide)
  exact ⟨by decide, by norm_num, h.1 (by norm_num), h.2⟩

/-- C10: on a no-op transition (normalized after-status equals the recorded
status) the handler returns before the record-update step: the whole state,
including the record's `since` timestamp, is left unchanged and nothing is
written. -/
theorem on_presence_update_noop_preserves_record
    (selfId userId : ℕ) (dbOk : Bool) (table : Table) (beforeStatus : Option String)
    (after prev : String) (since now : ℚ)
    (hrec : List.lookup userId table = some (prev, since))
    (hnoop : normalizeStatus after = prev) :
    on_presence_update selfId dbOk table userId beforeStatus after now = (table, []) := by
  unfold on_presence_update
  split
  · rfl
  · simp [hrec, hnoop]

/-- C10 witness: a duplicate `dnd -> dnd` event observed at time 75 leaves the
table entry (`dnd`, 50) untouched, so elapsed time keeps accruing from 50. -/
theorem on_presence_update_noop_preserves_record_witness :
    List.lookup 8 ([(8, ("dnd", (50 : ℚ)))] : Table) = some ("dnd", (50 : ℚ)) ∧
    normalizeStatus "dnd" = "dnd" ∧
    on_presence_update 1 true [(8, ("dnd", 50))] 8 none "dnd" 75 = ([(8, ("dnd", 50))], []) :=
  ⟨rfl, rfl,
    on_presence_update_noop_preserves_record 1 8 true [(8, ("dnd", 50))] none "dnd" "dnd"
      50 75 rfl rfl⟩

/-- C4: for every member document and positive day count, the aggregator sums
each canonical status over the per-day buckets of the `days` dates from the
invocation day (day 0, inclusive) back through `days - 1` days prior, missing
buckets contributing 0, and the summary satisfies
`online_total = online + idle + dnd`, `offline_total = offline`,
`grand_total` = sum of all four = `online_total + offline_total`. -/
theorem get_user_report_data_window_totals (store : Store) (uid : ℕ) (now : ℚ)
    (days : ℕ) (data : Doc) (hdays : 0 < days) (hdoc : store uid = some data) :
    ∃ u, get_user_report_data store uid now days = some u ∧
      u.online = windowSum data now days "online" ∧
      u.idle = windowSum data now days "idle" ∧
      u.dnd = windowSum data now days "dnd" ∧
      u.offline = windowSum data now days "offline" ∧
      u.online_time_s = u.online + u.idle + u.dnd ∧
      u.offline_time_s = u.offline ∧
      u.total = u.online + u.idle + u.dnd + u.offline ∧
      u.total = u.online_time_s + u.offline_time_s := by
  unfold get_user_report_data
  rw [hdoc]
  exact ⟨_, rfl, statusDaySum_eq_windowSum data now days "online",
    statusDaySum_eq_windowSum data now days "idle",
    statusDaySum_eq_windowSum data now days "dnd",
    statusDaySum_eq_windowSum data now days "offline", rfl, rfl, rfl, rfl⟩

/-- C4 witness: a two-day window (`now` on day 1) over a document holding
day-1 online time and day-0 idle time. -/
theorem get_user_report_data_window_totals_witness :
    0 < 2 ∧
    (fun u => if u = 5 then some ([("1_online_seconds", 10), ("0_idle_seconds", 20)] : Doc)
      else none : Store) 5 = some [("1_online_seconds", 10), ("0_idle_seconds", 20)] ∧
    ∃ u, get_user_report_data
        (fun u => if u = 5 then some [("1_online_seconds", 10), ("0_idle_seconds", 20)] else none)
        5 86500 2 = some u ∧
      u.online = windowSum [("1_online_seconds", 10), ("0_idle_seconds", 20)] 86500 2 "online" ∧
      u.idle = windowSum [("1_online_seconds", 10), ("0_idle_seconds", 20)] 86500 2 "idle" ∧
      u.dnd = windowSum [("1_online_seconds", 10), ("0_idle_seconds", 20)] 86500 2 "dnd" ∧
      u.offline = windowSum [("1_online_seconds", 10), ("0_idle_seconds", 20)] 86500 2 "offline" ∧
      u.online_time_s = u.online + u.idle + u.dnd ∧
      u.offline_time_s = u.offline ∧
      u.total = u.online + u.idle + u.dnd + u.offline ∧
      u.total = u.online_time_s + u.offline_time_s :=
  ⟨by decide, rfl,
    get_user_report_data_window_totals
      (fun u => if u = 5 then some [("1_online_seconds", 10), ("0_idle_seconds", 20)] else none)
      5 86500 2 [("1_online_seconds", 10), ("0_idle_seconds", 20)] (by decide) rfl⟩

/-- C6: the aggregator returns absent (`none`) exactly when the member has no
stored document; when the document exists but every bucket of the lookback
window is missing it instead returns the summary whose grand total is 0. -/
theorem get_user_report_data_absent_iff_no_document (store : Store) (uid : ℕ)
    (now : ℚ) (days : ℕ) (data : Doc)
    (hdoc : store uid = some data)
    (hempty : ∀ status ∈ (["online", "idle", "dnd", "offline"] : List String),
      ∀ i ∈ List.range days,
        List.lookup (strftime_date (now - 86400 * (i : ℚ)) ++ "_" ++ status ++ "_seconds") data
          = none) :
    (∀ (st : Store) (m : ℕ), (get_user_report_data st m now days = none ↔ st m = none)) ∧
    get_user_report_data store uid now days =
      some { online := 0, idle := 0, dnd := 0, offline := 0, total := 0,
             online_time_s := 0, offline_time_s := 0 } := by
  constructor
  · intro st m
    unfold get_user_report_data
    cases h : st m <;> simp
  · have hz : ∀ status ∈ (["online", "idle", "dnd", "offline"] : List String),
        statusDaySum data now days status = 0 := by
      intro status hs
      rw [statusDaySum_eq_windowSum, windowSum]
      apply List.sum_eq_zero
      intro x hx
      rw [List.mem_map] at hx
      obtain ⟨i, hi, hxi⟩ := hx
      rw [← hxi, docGet, hempty status hs i hi]
      rfl
    unfold get_user_report_data
    rw [hdoc]
    simp [hz "online" (by simp), hz "idle" (by simp), hz "dnd" (by simp),
      hz "offline" (by simp)]

/-- C6 witness: a member with an existing but empty document over a one-day
window gets the all-zero summary, while the absent/none equivalence holds for
every store and member. -/
theorem get_user_report_data_absent_iff_no_document_witness :
    (fun u => if u = 9 then some ([] : Doc) else none : Store) 9 = some ([] : Doc) ∧
    (∀ status ∈ (["online", "idle", "dnd", "offline"] : List String),
      ∀ i ∈ List.range 1,
        List.lookup (strftime_date ((0:ℚ) - 86400 * (i : ℚ)) ++ "_" ++ status ++ "_seconds")
          ([] : Doc) = none) ∧
    (∀ (st : Store) (m : ℕ), (get_user_report_data st m 0 1 = none ↔ st m = none)) ∧
    get_user_report_data (fun u => if u = 9 then some [] else none) 9 0 1 =
      some { online := 0, idle := 0, dnd := 0, offline := 0, total := 0,
             online_time_s := 0, offline_time_s := 0 } := by
  have h := get_user_report_data_absent_iff_no_document
    (fun u => if u = 9 then some [] else none) 9 0 1 [] rfl (fun status _ i _ => rfl)
  exact ⟨rfl, fun status _ i _ => rfl, h.1, h.2⟩

/-- C5 counterexample: the claim says normalization folds any unrecognized
raw value into `offline`; the accounting code only rewrites `invisible`, so
the unrecognized value `streaming` passes through unchanged, and the engine
then stores time into the non-canonical bucket `streaming_seconds`. -/
theorem normalizeStatus_unrecognized_counterexample :
    normalizeStatus "streaming" = "streaming" ∧ ("streaming" : String) ≠ "offline" ∧
    (on_presence_update 1 true [(42, ("streaming", 0))] 42 none "online" 10).2 =
      [{ lifetimeField := "streaming_seconds", dateField := "0_streaming_seconds",
         amount := 10, lastUpdated := 10 }] := by
  refine ⟨by decide, by decide, ?_⟩
  have hz : strftime_date 0 = "0" := by
    unfold strftime_date
    norm_num
    decide
  norm_num [on_presence_update, normalizeStatus, List.lookup, tableInsert, hz]
  decide

/-- C5 (amended): normalization maps `invisible` to `offline` and every other
raw value — the four canonical statuses, but also any unrecognized value — to
itself; there is no fail-open folding of unknown values into `offline`, so
accounting can store a bucket outside the 4-element canonical set. -/
theorem normalizeStatus_invisible_only (s : String) (h : s ≠ "invisible") :
    normalizeStatus "invisible" = "offline" ∧ normalizeStatus s = s :=
  ⟨rfl, if_neg h⟩

/-- C5 witness: the unrecognized value `streaming` maps to itself. -/
theorem normalizeStatus_invisible_only_witness :
    ("streaming" : String) ≠ "invisible" ∧
    normalizeStatus "invisible" = "offline" ∧ normalizeStatus "streaming" = "streaming" :=
  ⟨by decide, (normalizeStatus_invisible_only "streaming" (by decide)).1,
    (normalizeStatus_invisible_only "streaming" (by decide)).2⟩

/-- C7 counterexample: the claim says the presenter's per-status breakdown
shows each status's share of the grand total as a percentage to one decimal
place; the source renders formatted durations instead.  For a summary that is
100% `online` the rendered line is `🟢 オンライン: 1時間` — it contains no
percent sign (and not the digits `100.0` of the share), and differs from the
percentage line the spec describes. -/
theorem send_user_report_embed_no_percentages_counterexample :
    send_user_report_embed (some ⟨3600, 0, 0, 0, 3600, 3600, 0⟩) =
      ReportOutput.embed "1時間" "1時間" "0.00秒" ["🟢 オンライン: 1時間"] ∧
    percentBreakdown_spec ⟨3600, 0, 0, 0, 3600, 3600, 0⟩ = ["🟢 オンライン: 100.0%"] ∧
    ¬ ('%' ∈ ("🟢 オンライン: 1時間" : String).data) ∧
    ("🟢 オンライン: 1時間" : String) ≠ "🟢 オンライン: 100.0%" := by
  have hft0 : format_time 0 = "0.00秒" := by
    have h : (⌊(0:ℚ)⌋).toNat = 0 := by norm_num
    simp only [format_time, format_time_nonneg, h]
    norm_num [str_join, formatFixed2]
    decide
  have hft3600 : format_time 3600 = "1時間" := by
    have h : (⌊(3600:ℚ)⌋).toNat = 3600 := by
      have h2 : (⌊(3600:ℚ)⌋) = 3600 := by norm_num
      rw [h2]
      rfl
    simp only [format_time, format_time_nonneg, h]
    norm_num [str_join]
    decide
  have hff1 : formatFixed1 100 = "100.0" := by
    simp only [formatFixed1]
    have h2 : (⌊(100:ℚ) * 10 + 1 / 2⌋) = 1000 := by norm_num
    rw [h2]
    decide
  have p1 : (0:ℚ) < 3600 := by norm_num
  have p2 : ¬ ((0:ℚ) < 0) := by norm_num
  have p3 : ((3600:ℚ) = 0) = False := by norm_num
  have p4 : (100:ℚ) * 3600 / 3600 = 100 := by norm_num
  refine ⟨?_, ?_, by decide, by decide⟩
  · simp [send_user_report_embed, statusBreakdown, userDataGet, get_status_emoji,
      p1, p2, p3, hft0, hft3600]
  · simp [percentBreakdown_spec, userDataGet, get_status_emoji, p1, p2, p4, hff1]

/-- C7 (amended): for every summary whose roll-up fields satisfy the
aggregator's equations, the presenter renders the single "no activity found"
notice when the grand total is 0, and otherwise renders the formatted grand
total, the online-vs-offline split, and a per-status breakdown giving each
nonzero status's formatted duration (not a percentage), omitting zero-valued
statuses. -/
theorem send_user_report_embed_renders (u : UserData)
    (h1 : u.total = u.online + u.idle + u.dnd + u.offline)
    (h2 : u.online_time_s = u.online + u.idle + u.dnd)
    (h3 : u.offline_time_s = u.offline) :
    send_user_report_embed none = ReportOutput.noActivity ∧
    (u.total = 0 → send_user_report_embed (some u) = ReportOutput.noActivity) ∧
    (0 < u.total → send_user_report_embed (some u) =
      ReportOutput.embed (format_time u.total) (format_time u.online_time_s)
        (format_time u.offline_time_s) (breakdown_spec u)) := by
  refine ⟨rfl, fun h0 => by simp [send_user_report_embed, h0], fun hpos => ?_⟩
  have htot : u.online_time_s + u.offline_time_s = u.total := by rw [h1, h2, h3]
  have hne : u.total ≠ 0 := ne_of_gt hpos
  simp [send_user_report_embed, hne, htot, statusBreakdown_eq_spec]

/-- C7 witness: a summary of one hour online. -/
theorem send_user_report_embed_renders_witness :
    ((3600:ℚ) = 3600 + 0 + 0 + 0) ∧ ((3600:ℚ) = 3600 + 0 + 0) ∧ ((0:ℚ) = 0) ∧
    (send_user_report_embed none = ReportOutput.noActivity ∧
      ((3600:ℚ) = 0 → send_user_report_embed (some ⟨3600, 0, 0, 0, 3600, 3600, 0⟩) =
        ReportOutput.noActivity) ∧
      (0 < (3600:ℚ) → send_user_report_embed (some ⟨3600, 0, 0, 0, 3600, 3600, 0⟩) =
        ReportOutput.embed (format_time 3600) (format_time 3600) (format_time 0)
          (breakdown_spec ⟨3600, 0, 0, 0, 3600, 3600, 0⟩))) :=
  ⟨by norm_num, by norm_num, rfl,
    send_user_report_embed_renders ⟨3600, 0, 0, 0, 3600, 3600, 0⟩
      (by norm_num) (by norm_num) rfl⟩

/-- C8 counterexample: the claim says the formatter always includes the
seconds component (even "0.00 seconds"); for exactly 60 seconds the source
emits only the minutes component, with no seconds part — no `秒` unit (which
every rendered seconds component ends in) appears in the output. -/
theorem format_time_seconds_component_omitted_counterexample :
    format_time 60 = "1分" ∧ ¬ ('秒' ∈ ("1分" : String).data) := by
  constructor
  · have h : (⌊(60:ℚ)⌋).toNat = 60 := by
      have h2 : (⌊(60:ℚ)⌋) = 60 := by norm_num
      rw [h2]
      rfl
    simp only [format_time, format_time_nonneg, h]
    norm_num [str_join]
    decide
  · decide

/-- C8 (amended): for every non-negative seconds value, the formatter
decomposes it into whole hours, whole minutes, and a remaining seconds value
with two fractional digits, omitting the hours component when it is zero and
the minutes component when it is zero; the seconds component is included
exactly when its value is nonzero or both other components are absent (not
always), and the output is never the empty string. -/
theorem format_time_decomposition (q : ℚ) (hq : 0 ≤ q) :
    format_time q = format_time_spec q ∧ format_time q ≠ "" := by
  have heq : format_time q = format_time_nonneg q := if_neg (not_lt.mpr hq)
  rw [heq, format_time_nonneg_eq_spec q]
  exact ⟨rfl, format_time_spec_ne_empty q⟩

/-- C8 witness: one hour, one minute and one and a half seconds. -/
theorem format_time_decomposition_witness :
    (0:ℚ) ≤ 3661.5 ∧ format_time 3661.5 = format_time_spec 3661.5 ∧ format_time 3661.5 ≠ "" :=
  ⟨by norm_num, (format_time_decomposition 3661.5 (by norm_num)).1,
    (format_time_decomposition 3661.5 (by norm_num)).2⟩

/-- C9: the formatter renders 0 as `0.00秒`, and for every positive `x` it
renders `-x` by wrapping the rendering of `x` in parentheses rather than
rejecting the input. -/
theorem format_time_zero_and_negative :
    format_time 0 = "0.00秒" ∧
    ∀ x : ℚ, 0 < x → format_time (-x) = "(" ++ format_time x ++ ")" := by
  constructor
  · have h : (⌊(0:ℚ)⌋).toNat = 0 := by norm_num
    simp only [format_time, format_time_nonneg, h]
    norm_num [str_join, formatFixed2]
    decide
  · intro x hx
    rw [format_time, if_pos (neg_neg_iff_pos.mpr hx), abs_neg, abs_of_pos hx,
      format_time, if_neg (not_lt.mpr hx.le)]

/-- C9 witness: minus ninety and a quarter seconds is rendered in
parentheses. -/
theorem format_time_zero_and_negative_witness :
    (0:ℚ) < 90.25 ∧ format_time (-(90.25:ℚ)) = "(" ++ format_time 90.25 ++ ")" :=
  ⟨by norm_num, format_time_zero_and_negative.2 90.25 (by norm_num)⟩
